import Mathlib

/-!
Shallow embedding of the auth guard and content lifecycle of the
news/video CMS backend (Express + Mongoose routes and models), together
with theorems settling the frozen behavioural claims about them.

Times are modelled as natural numbers of milliseconds (JavaScript
`Date.now()` values).  The bcrypt hash is modelled by an injective
tagging function; the document store is modelled as a list of records,
and each route handler as a pure function from the relevant store
fragment to a response paired with the updated store fragment.
-/

/-- Content lifecycle status (`status` enum of the News/Video schemas). -/
inductive Status
  | draft
  | published
deriving DecidableEq, Repr

/-- Account roles (`role` enum of the User schema, plus the synthetic
`guest` role attached by the auth middleware to guest tokens). -/
inductive Role
  | user
  | admin
  | superAdmin
  | guest
deriving DecidableEq, Repr

/-- Account status (`status` enum of the User schema). -/
inductive UserStatus
  | active
  | inactive
  | suspended
deriving DecidableEq, Repr

/-- Account record: the fields of the User schema that the auth guard
reads or writes.  `password` holds the bcrypt hash. -/
structure User where
  id : Nat
  name : String
  email : String
  password : String
  phone : Option String
  role : Role
  status : UserStatus
  phoneVerified : Bool
  lastLogin : Option Nat
  loginAttempts : Nat
  lockUntil : Option Nat
  lastActiveAt : Option Nat
deriving DecidableEq, Repr

/-- Abstract bcrypt hash: an injective tag on the plaintext.
the pre-save hook of the user schema hashes the password before persisting it. -/
def bhash (s : String) : String := "bcrypt$" ++ s

/-- Method `comparePassword` of the user schema: false when no hash is stored,
otherwise a bcrypt comparison of candidate against stored hash. -/
def comparePassword (candidate stored : String) : Bool :=
  if stored = "" then false else bhash candidate == stored

/-- Virtual `isLocked` of the user schema: lock-until is set and strictly in
the future. -/
def isLockedAt (u : User) (now : Nat) : Bool :=
  match u.lockUntil with
  | some t => now < t
  | none => false

/-- A previously set lock that has already expired
(`this.lockUntil && this.lockUntil < Date.now()`). -/
def expiredLockAt (u : User) (now : Nat) : Bool :=
  match u.lockUntil with
  | some t => t < now
  | none => false

/-- Failure threshold (`maxAttempts` in `incLoginAttempts`). -/
def maxAttempts : Nat := 5

/-- Lock duration in milliseconds (`lockTime` in `incLoginAttempts`,
2 hours). -/
def lockTime : Nat := 2 * 60 * 60 * 1000

/-- Method `incLoginAttempts` of the user schema: restart at 1 when an earlier
lock has expired; otherwise increment the counter, and set lock-until to
now + 2 hours when the incremented counter reaches the threshold on an
unlocked account. -/
def incLoginAttempts (u : User) (now : Nat) : User :=
  if expiredLockAt u now then
    { u with lockUntil := none, loginAttempts := 1 }
  else if maxAttempts ≤ u.loginAttempts + 1 && !(isLockedAt u now) then
    { u with loginAttempts := u.loginAttempts + 1, lockUntil := some (now + lockTime) }
  else
    { u with loginAttempts := u.loginAttempts + 1 }

/-- Method `resetLoginAttempts` of the user schema: unset counter and lock
(the schema defaults make an unset counter read as 0). -/
def resetLoginAttempts (u : User) : User :=
  { u with loginAttempts := 0, lockUntil := none }

/-- Token issuance (`generateToken`): a JWT signed over the user id,
modelled as an id-derived opaque string. -/
def generateToken (uid : Nat) : String := "jwt." ++ toString uid

/-- Response of an authentication route: HTTP status plus the issued
token when authentication succeeded. -/
structure LoginResp where
  http : Nat
  token : Option String
deriving DecidableEq, Repr

/-- Login route handler (`POST /api/auth/login`) acting on the account found by email (the
not-found case is decided before this point and returns 401).  Checks,
in source order: lock, active status, password; a failed comparison
increments the attempt counter, success resets it when positive and
stamps last-login / last-active. -/
def loginStep (u : User) (pw : String) (now : Nat) : LoginResp × User :=
  if isLockedAt u now then
    (⟨423, none⟩, u)
  else if u.status ≠ UserStatus.active then
    (⟨403, none⟩, u)
  else if !(comparePassword pw u.password) then
    (⟨401, none⟩, incLoginAttempts u now)
  else
    let u1 := if 0 < u.loginAttempts then resetLoginAttempts u else u
    (⟨200, some (generateToken u.id)⟩,
      { u1 with lastLogin := some now, lastActiveAt := some now })

/-- Repeated login attempts with one password at the listed times,
keeping only the evolving account state. -/
def runAttempts (u : User) (pw : String) (ts : List Nat) : User :=
  ts.foldl (fun acc t => (loginStep acc pw t).2) u

/-- The mock OTP accepted by the phone-login route. -/
def validOTP : String := "1234"

/-- Last four characters of a string (`phone.slice(-4)`). -/
def lastFour (s : String) : String :=
  String.mk (s.data.reverse.take 4).reverse

/-- Account auto-provisioned by phone login when no account holds the
phone number: placeholder name and email, random password (passed in as
`randPw` and hashed on save), phone verified.  All schema defaults
apply; the store assigns the identifier, fixed to 0 here. -/
def newPhoneUser (phone randPw : String) : User :=
  { id := 0, name := "User " ++ lastFour phone,
    email := phone ++ "@temp.com", password := bhash randPw,
    phone := some phone, role := Role.user, status := UserStatus.active,
    phoneVerified := true, lastLogin := none, loginAttempts := 0,
    lockUntil := none, lastActiveAt := none }

/-- Phone-login route handler (`POST /api/auth/phone-login`) acting on the account found by phone
number (`found`).  Source order: reject a wrong OTP before the lookup,
auto-provision a missing account, reject a non-active account, then
issue a token and stamp last-login, phone-verified and last-active.
No lock check and no attempt-counter reset occurs on this path. -/
def phoneLoginStep (found : Option User) (phone otp randPw : String) (now : Nat) :
    LoginResp × Option User :=
  if otp ≠ validOTP then
    (⟨401, none⟩, found)
  else
    let u := match found with
      | some u => u
      | none => newPhoneUser phone randPw
    if u.status ≠ UserStatus.active then
      (⟨403, none⟩, some u)
    else
      (⟨200, some (generateToken u.id)⟩,
        some { u with lastLogin := some now, phoneVerified := true,
                      lastActiveAt := some now })

/-- News article record: the fields of the News schema relevant to the
lifecycle and engagement behaviour.  Absent optional fields are `none`. -/
structure News where
  id : Nat
  title : String
  summary : String
  content : String
  category : String
  imageUrl : Option String
  status : Status
  views : Nat
  shares : Nat
  featured : Bool
  publishedAt : Option Nat
  createdBy : Nat
deriving DecidableEq, Repr

/-- Video record: the fields of the Video schema relevant to the
lifecycle, uniqueness and engagement behaviour.  A missing `youtubeId`
is encoded as the empty string (falsy, as in the schema hook). -/
structure Video where
  id : Nat
  title : String
  description : String
  youtubeUrl : String
  youtubeId : String
  thumbnailUrl : Option String
  category : String
  duration : Option String
  status : Status
  views : Nat
  shares : Nat
  likes : Nat
  featured : Bool
  publishedAt : Option Nat
  createdBy : Nat
deriving DecidableEq, Repr

/-- Characters ending the captured group `[^&\n?#]+` of the YouTube id
patterns. -/
def stopChar (c : Char) : Bool :=
  c = '&' || c = '\n' || c = '?' || c = '#'

/-- When the marker is a leading segment of `cs`, the non-empty run of
non-stop characters following it (the capture of the first id pattern). -/
def captureAfter (marker cs : List Char) : Option (List Char) :=
  if marker.isPrefixOf cs then
    let cap := (cs.drop marker.length).takeWhile (fun c => !stopChar c)
    if cap.isEmpty then none else some cap
  else none

/-- Left-to-right scan of the first id pattern
`(youtube.com/watch?v=|youtu.be/|youtube.com/embed/)([^&\n?#]+)`,
trying the alternatives in source order at each position. -/
def scanIdMarker : List Char → Option (List Char)
  | [] => none
  | c :: rest =>
    match captureAfter "youtube.com/watch?v=".data (c :: rest) with
    | some r => some r
    | none =>
      match captureAfter "youtu.be/".data (c :: rest) with
      | some r => some r
      | none =>
        match captureAfter "youtube.com/embed/".data (c :: rest) with
        | some r => some r
        | none => scanIdMarker rest

/-- The greedy `.*v=([^&\n?#]+)` tail of the second id pattern: the
rightmost `v=` before any newline whose capture is non-empty. -/
def scanVEq : List Char → Option (List Char)
  | [] => none
  | c :: rest =>
    if c = '\n' then none
    else
      match scanVEq rest with
      | some r => some r
      | none => captureAfter "v=".data (c :: rest)

/-- Left-to-right scan of the second id pattern
`youtube.com/watch\?.*v=([^&\n?#]+)`. -/
def scanWatchVEq : List Char → Option (List Char)
  | [] => none
  | c :: rest =>
    if "youtube.com/watch?".data.isPrefixOf (c :: rest) then
      match scanVEq ((c :: rest).drop "youtube.com/watch?".data.length) with
      | some r => some r
      | none => scanWatchVEq rest
    else scanWatchVEq rest

/-- Helper `extractYouTubeId` of the videos router: first pattern wins,
the second pattern is the fallback, otherwise null. -/
def extractYouTubeId (url : String) : Option String :=
  match scanIdMarker url.data with
  | some r => some (String.mk r)
  | none => (scanWatchVEq url.data).map String.mk

/-- The YouTube thumbnail URL derived from a video id (the default used
by the schema hook and the `defaultThumbnail` virtual). -/
def youtubeThumbnail (yid : String) : String :=
  "https://img.youtube.com/vi/" ++ yid ++ "/maxresdefault.jpg"

/-- Pre-save hook of the news schema: when the status field was modified by this
save, entering `published` stamps `publishedAt` if it is not already
set, and entering `draft` unsets it. -/
def newsPreSave (statusModified : Bool) (doc : News) (now : Nat) : News :=
  let doc :=
    if statusModified ∧ doc.status = Status.published ∧ doc.publishedAt = none
    then { doc with publishedAt := some now } else doc
  if statusModified ∧ doc.status = Status.draft
  then { doc with publishedAt := none } else doc

/-- Pre-save hook of the video schema: derive a missing `youtubeId` from the
URL, default the thumbnail from the id, then the same `publishedAt`
stamping and clearing as for news. -/
def videoPreSave (statusModified : Bool) (doc : Video) (now : Nat) : Video :=
  let doc :=
    if doc.youtubeUrl ≠ "" ∧ doc.youtubeId = ""
    then { doc with youtubeId := (extractYouTubeId doc.youtubeUrl).getD doc.youtubeId }
    else doc
  let doc :=
    if doc.thumbnailUrl = none ∧ doc.youtubeId ≠ ""
    then { doc with thumbnailUrl := some (youtubeThumbnail doc.youtubeId) }
    else doc
  let doc :=
    if statusModified ∧ doc.status = Status.published ∧ doc.publishedAt = none
    then { doc with publishedAt := some now } else doc
  if statusModified ∧ doc.status = Status.draft
  then { doc with publishedAt := none } else doc

/-- Lookup `News.findById` over the store. -/
def findNews (store : List News) (i : Nat) : Option News :=
  store.find? (fun a => a.id == i)

/-- Lookup `Video.findById` over the store. -/
def findVideo (store : List Video) (i : Nat) : Option Video :=
  store.find? (fun v => v.id == i)

/-- Persisting a full document write-back for the given id. -/
def replaceNews (store : List News) (i : Nat) (a : News) : List News :=
  store.map (fun b => if b.id == i then a else b)

/-- Persisting a full document write-back for the given id. -/
def replaceVideo (store : List Video) (i : Nat) (v : Video) : List Video :=
  store.map (fun b => if b.id == i then v else b)

/-- Identifier the store assigns to a newly inserted news document. -/
def freshNewsId (store : List News) : Nat :=
  store.foldl (fun m a => max m a.id) 0 + 1

/-- Identifier the store assigns to a newly inserted video document. -/
def freshVideoId (store : List Video) : Nat :=
  store.foldl (fun m v => max m v.id) 0 + 1

/-- Request body accepted by the news create/update routes after
validation (fields of `validateNews`).  Absent fields are `none`. -/
structure NewsBody where
  title : Option String := none
  summary : Option String := none
  content : Option String := none
  category : Option String := none
  imageUrl : Option String := none
  status : Option Status := none
  featured : Option Bool := none
deriving Repr

/-- Request body accepted by the video create/update routes after
validation (fields of `validateVideo`). -/
structure VideoBody where
  title : Option String := none
  description : Option String := none
  youtubeUrl : Option String := none
  thumbnailUrl : Option String := none
  category : Option String := none
  duration : Option String := none
  status : Option Status := none
  featured : Option Bool := none
deriving Repr

/-- Create route of the news router (`POST /api/news`): build the document from the
body plus `createdBy`, let schema defaults fill the rest, and persist it
through `save`, which runs the pre-save hook with every set field
counting as modified. -/
def createNews (store : List News) (b : NewsBody) (uid now : Nat) :
    (Nat × Option News) × List News :=
  let doc : News :=
    { id := freshNewsId store, title := b.title.getD "",
      summary := b.summary.getD "", content := b.content.getD "",
      category := b.category.getD "", imageUrl := b.imageUrl,
      status := b.status.getD Status.draft, views := 0, shares := 0,
      featured := b.featured.getD false, publishedAt := none,
      createdBy := uid }
  let doc := newsPreSave true doc now
  ((201, some doc), store ++ [doc])

/-- Overwrite of a news document by the fields present in an update
body, exactly as `findByIdAndUpdate` applies them: a plain field-wise
set with no document middleware, so `publishedAt` is untouched. -/
def applyNewsUpdate (a : News) (b : NewsBody) : News :=
  { a with
    title := b.title.getD a.title,
    summary := b.summary.getD a.summary,
    content := b.content.getD a.content,
    category := b.category.getD a.category,
    imageUrl := match b.imageUrl with | some s => some s | none => a.imageUrl,
    status := b.status.getD a.status,
    featured := b.featured.getD a.featured }

/-- Update route of the news router (`PUT /api/news/:id`): `findByIdAndUpdate` with
validators but without the `save` hook; 404 when the id is absent. -/
def updateNews (store : List News) (i : Nat) (b : NewsBody) :
    (Nat × Option News) × List News :=
  match findNews store i with
  | none => ((404, none), store)
  | some a =>
    let a2 := applyNewsUpdate a b
    ((200, some a2), replaceNews store i a2)

/-- Create route of the videos router (`POST /api/videos`): derive the YouTube id from
the URL (400 when underivable), reject a duplicate id already in the
store (400, nothing persisted), otherwise build the document and persist
it through `save` with its pre-save hook. -/
def createVideo (store : List Video) (b : VideoBody) (uid now : Nat) :
    (Nat × Option Video) × List Video :=
  match extractYouTubeId (b.youtubeUrl.getD "") with
  | none => ((400, none), store)
  | some yid =>
    if store.any (fun v => v.youtubeId == yid) then
      ((400, none), store)
    else
      let doc : Video :=
        { id := freshVideoId store, title := b.title.getD "",
          description := b.description.getD "",
          youtubeUrl := b.youtubeUrl.getD "", youtubeId := yid,
          thumbnailUrl := b.thumbnailUrl, category := b.category.getD "",
          duration := b.duration, status := b.status.getD Status.draft,
          views := 0, shares := 0, likes := 0,
          featured := b.featured.getD false, publishedAt := none,
          createdBy := uid }
      let doc := videoPreSave true doc now
      ((201, some doc), store ++ [doc])

/-- Share route of the news router (`POST /api/news/:id/share`): 404 when the id is
absent, 403 on a non-published article, otherwise `incrementShares`
(one added to the in-memory counter, then the document saved back) and
the updated counter returned. -/
def shareNews (store : List News) (i : Nat) : (Nat × Option Nat) × List News :=
  match findNews store i with
  | none => ((404, none), store)
  | some a =>
    if a.status ≠ Status.published then
      ((403, none), store)
    else
      let a2 := { a with shares := a.shares + 1 }
      ((200, some a2.shares), replaceNews store i a2)

/-- Share route of the videos router (`POST /api/videos/:id/share`), mirroring the
news share handler via `incrementShares`. -/
def shareVideo (store : List Video) (i : Nat) : (Nat × Option Nat) × List Video :=
  match findVideo store i with
  | none => ((404, none), store)
  | some v =>
    if v.status ≠ Status.published then
      ((403, none), store)
    else
      let v2 := { v with shares := v.shares + 1 }
      ((200, some v2.shares), replaceVideo store i v2)

/-- Like route of the videos router (`POST /api/videos/:id/like`): 404 when the id is
absent, 403 on a non-published video, otherwise `incrementLikes`. -/
def likeVideo (store : List Video) (i : Nat) : (Nat × Option Nat) × List Video :=
  match findVideo store i with
  | none => ((404, none), store)
  | some v =>
    if v.status ≠ Status.published then
      ((403, none), store)
    else
      let v2 := { v with likes := v.likes + 1 }
      ((200, some v2.likes), replaceVideo store i v2)

/-- The authenticated caller the middleware attaches to a request
(`req.user`); `none` models an anonymous request. -/
structure Caller where
  userId : Nat
  role : Role
deriving DecidableEq, Repr

/-- Role of an optional caller. -/
def callerRole (c : Option Caller) : Option Role := c.map Caller.role

/-- Predicate of `adminMiddleware`: role is admin or super_admin. -/
def hasAdminPrivileges (c : Option Caller) : Bool :=
  match c with
  | some u => u.role == Role.admin || u.role == Role.superAdmin
  | none => false

/-- Status filter the news list route builds: forced to `published`
unless `req.user` exists with role exactly `admin`, in which case the
requested status (which defaults to `published`) is used. -/
def effectiveNewsStatus (c : Option Caller) (requested : Status) : Status :=
  match c with
  | none => Status.published
  | some u => if u.role ≠ Role.admin then Status.published else requested

/-- Status filter the videos list route builds, identical in source to
the news one. -/
def effectiveVideoStatus (c : Option Caller) (requested : Status) : Status :=
  match c with
  | none => Status.published
  | some u => if u.role ≠ Role.admin then Status.published else requested

/-- Query parameters of the list routes that bear on which documents
match: requested status (destructuring default `published`), optional
category and featured filters, and the page window.  Free-text search
only narrows the match set further and sorting only permutes it, so
neither is modelled. -/
structure ListParams where
  page : Nat := 1
  limit : Nat := 10
  category : Option String := none
  featured : Option Bool := none
  status : Status := Status.published
deriving Repr

/-- Match predicate of the news list query for a given effective
status filter. -/
def newsMatches (eff : Status) (p : ListParams) (a : News) : Bool :=
  a.status == eff
    && (match p.category with | some c => a.category == c | none => true)
    && (match p.featured with | some f => a.featured == f | none => true)

/-- Match predicate of the videos list query. -/
def videoMatches (eff : Status) (p : ListParams) (v : Video) : Bool :=
  v.status == eff
    && (match p.category with | some c => v.category == c | none => true)
    && (match p.featured with | some f => v.featured == f | none => true)

/-- List route of the news router (`GET /api/news`): the page of matching articles
together with the total count, which `countDocuments` computes over the
same query independently of the page window. -/
def listNews (store : List News) (c : Option Caller) (p : ListParams) :
    List News × Nat :=
  let eff := effectiveNewsStatus c p.status
  let matching := store.filter (newsMatches eff p)
  ((matching.drop ((p.page - 1) * p.limit)).take p.limit, matching.length)

/-- List route of the videos router (`GET /api/videos`). -/
def listVideos (store : List Video) (c : Option Caller) (p : ListParams) :
    List Video × Nat :=
  let eff := effectiveVideoStatus c p.status
  let matching := store.filter (videoMatches eff p)
  ((matching.drop ((p.page - 1) * p.limit)).take p.limit, matching.length)

/-- State of two concurrent share requests against one published
document: the stored counter, and for each request the snapshot its
`findById` read (if taken yet) and whether its `save` has run. -/
structure ShareRace where
  shares : Nat
  snapA : Option Nat
  doneA : Bool
  snapB : Option Nat
  doneB : Bool
deriving DecidableEq, Repr

/-- One store round trip of a share request, as the source performs it:
`findById` reads a snapshot of the document, then `incrementShares`
adds one to the snapshot and `save` writes the snapshot back.  `a`
selects which of the two requests moves. -/
def shareRaceStep (a : Bool) (st : ShareRace) : ShareRace :=
  if a then
    match st.snapA, st.doneA with
    | none, _ => { st with snapA := some st.shares }
    | some s, false => { st with shares := s + 1, doneA := true }
    | some _, true => st
  else
    match st.snapB, st.doneB with
    | none, _ => { st with snapB := some st.shares }
    | some s, false => { st with shares := s + 1, doneB := true }
    | some _, true => st

/-- Run an interleaving of the two share requests from an initial
counter value. -/
def runShareRace (sched : List Bool) (s0 : Nat) : ShareRace :=
  sched.foldl (fun st a => shareRaceStep a st) ⟨s0, none, false, none, false⟩

/-- State of two concurrent view increments: the stored counter and
whether each request has run.  The view path is a single
`findByIdAndUpdate(id, $inc views 1)` round trip, so each request is
one atomic step. -/
structure ViewRace where
  views : Nat
  doneA : Bool
  doneB : Bool
deriving DecidableEq, Repr

/-- The single atomic store round trip of a view increment. -/
def viewRaceStep (a : Bool) (st : ViewRace) : ViewRace :=
  if a then
    if st.doneA then st else { st with views := st.views + 1, doneA := true }
  else
    if st.doneB then st else { st with views := st.views + 1, doneB := true }

/-- Run an interleaving of the two view increments from an initial
counter value. -/
def runViewRace (sched : List Bool) (v0 : Nat) : ViewRace :=
  sched.foldl (fun st a => viewRaceStep a st) ⟨v0, false, false⟩

/-- Sample article persisted in draft state with no publish timestamp. -/
def sampleDraftArticle : News :=
  { id := 1, title := "Budget session opens", summary := "Parliament meets for the budget.",
    content := "The parliament convened for the budget session this week with a full agenda.",
    category := "Politics", imageUrl := none, status := Status.draft,
    views := 0, shares := 0, featured := false, publishedAt := none,
    createdBy := 7 }

/-- Sample article persisted in published state with its timestamp. -/
def samplePublishedArticle : News :=
  { sampleDraftArticle with status := Status.published, publishedAt := some 5000 }

/-- Body publishing an article through the update route. -/
def publishBody : NewsBody := { status := some Status.published }

/-- Body moving an article back to draft through the update route. -/
def draftBody : NewsBody := { status := some Status.draft }

/-- C1: the claimed iff between a non-null publish timestamp and
published status fails on the update write path: the news update route
persists the status through `findByIdAndUpdate`, which skips the
pre-save hook, so publishing a draft article via update leaves its
publish timestamp null, and drafting a published article via update
keeps the stale timestamp. -/
theorem update_path_breaks_publish_timestamp_iff :
    ((updateNews [sampleDraftArticle] 1 publishBody).2.map
        (fun a => (a.status, a.publishedAt)))
      = [(Status.published, none)] ∧
    ((updateNews [samplePublishedArticle] 1 draftBody).2.map
        (fun a => (a.status, a.publishedAt)))
      = [(Status.draft, some 5000)] ∧
    ((createNews [] { publishBody with title := sampleDraftArticle.title } 7 9000).2.map
        (fun a => (a.status, a.publishedAt)))
      = [(Status.published, some 9000)] := by decide

/-- Sample video persisted in published state. -/
def sampleStoredVideo : Video :=
  { id := 1, title := "Morning briefing live", description := "Daily news roundup.",
    youtubeUrl := "https://youtu.be/abc123xyz00", youtubeId := "abc123xyz00",
    thumbnailUrl := none, category := "News", duration := some "12:34",
    status := Status.published, views := 3, shares := 1, likes := 2,
    featured := false, publishedAt := some 1000, createdBy := 7 }

/-- C5: creating a video whose URL derives a YouTube id already present
in the store answers 400 and persists nothing, whatever the other body
fields say. -/
theorem duplicate_video_creation_rejected (store : List Video) (b : VideoBody)
    (uid now : Nat) (yid : String) (v : Video)
    (hx : extractYouTubeId (b.youtubeUrl.getD "") = some yid)
    (hv : v ∈ store) (hid : v.youtubeId = yid) :
    createVideo store b uid now = ((400, none), store) := by
  unfold createVideo
  rw [hx]
  have hany : store.any (fun w => w.youtubeId == yid) = true :=
    List.any_eq_true.mpr ⟨v, hv, by simp [hid]⟩
  simp [hany]

/-- Body of a duplicate video submission: a watch-style URL deriving
the same id as the stored video, under a different title and category. -/
def duplicateVideoBody : VideoBody :=
  { title := some "A completely different title",
    category := some "Interview",
    youtubeUrl := some "https://www.youtube.com/watch?v=abc123xyz00" }

/-- Witness for C5 at a concrete store and body. -/
theorem duplicate_video_creation_rejected_witness :
    createVideo [sampleStoredVideo] duplicateVideoBody 9 2000
      = ((400, none), [sampleStoredVideo]) :=
  duplicate_video_creation_rejected [sampleStoredVideo] duplicateVideoBody 9 2000
    "abc123xyz00" sampleStoredVideo (by decide) (by decide) (by decide)

/-- C7: a login against an account whose lock-until lies in the future
answers 423 and returns the account record unchanged, for every
submitted password — the secret is never compared, the counter is not
incremented and the lock is untouched. -/
theorem locked_login_rejected_unchanged (u : User) (pw : String) (now : Nat)
    (h : isLockedAt u now = true) :
    loginStep u pw now = (⟨423, none⟩, u) := by
  simp [loginStep, h]

/-- Account locked until time 10000 after five failures. -/
def lockedUser : User :=
  { id := 3, name := "Lina", email := "lina@example.com",
    password := bhash "secret1", phone := some "9998887776",
    role := Role.user, status := UserStatus.active, phoneVerified := false,
    lastLogin := none, loginAttempts := 5, lockUntil := some 10000,
    lastActiveAt := none }

/-- Witness for C7: even the correct password is rejected with 423 and
no mutation while the lock is in the future. -/
theorem locked_login_rejected_unchanged_witness :
    loginStep lockedUser "secret1" 9000 = (⟨423, none⟩, lockedUser) :=
  locked_login_rejected_unchanged lockedUser "secret1" 9000 (by decide)

/-- C4 counterexample: a super_admin caller — who passes the admin
middleware and so has admin privileges — requesting draft items is
still forced to the published filter by both list routes, because the
routes compare the role against the literal `admin` only. -/
theorem super_admin_forced_to_published :
    hasAdminPrivileges (some ⟨9, Role.superAdmin⟩) = true ∧
    effectiveNewsStatus (some ⟨9, Role.superAdmin⟩) Status.draft = Status.published ∧
    effectiveVideoStatus (some ⟨9, Role.superAdmin⟩) Status.draft = Status.published ∧
    Status.published ≠ Status.draft := by decide

/-- C4 amended: every caller whose role is not exactly `admin` —
anonymous and guest callers, plain users, and also super_admin — is
forced to the published status filter on both list routes, so the page
holds only published items and the total counts exactly the published
matches; only a caller with role exactly `admin` gets the requested
status as the filter. -/
theorem list_status_forcing (ns : List News) (vs : List Video)
    (c : Option Caller) (p : ListParams) :
    (callerRole c ≠ some Role.admin →
      effectiveNewsStatus c p.status = Status.published ∧
      effectiveVideoStatus c p.status = Status.published ∧
      (∀ a ∈ (listNews ns c p).1, a.status = Status.published) ∧
      (listNews ns c p).2 = (ns.filter (newsMatches Status.published p)).length ∧
      (∀ v ∈ (listVideos vs c p).1, v.status = Status.published) ∧
      (listVideos vs c p).2 = (vs.filter (videoMatches Status.published p)).length) ∧
    (callerRole c = some Role.admin →
      effectiveNewsStatus c p.status = p.status ∧
      effectiveVideoStatus c p.status = p.status) := by
  have heff : callerRole c ≠ some Role.admin →
      effectiveNewsStatus c p.status = Status.published ∧
      effectiveVideoStatus c p.status = Status.published := by
    intro hne
    cases c with
    | none => simp [effectiveNewsStatus, effectiveVideoStatus]
    | some u =>
      have hu : u.role ≠ Role.admin := by
        intro h
        exact hne (by simp [callerRole, h])
      simp [effectiveNewsStatus, effectiveVideoStatus, hu]
  constructor
  · intro hne
    obtain ⟨hn, hv⟩ := heff hne
    refine ⟨hn, hv, ?_, ?_, ?_, ?_⟩
    · intro a ha
      have ha' : a ∈ ((ns.filter (newsMatches (effectiveNewsStatus c p.status) p)).drop
          ((p.page - 1) * p.limit)).take p.limit := ha
      have hmem : a ∈ ns.filter (newsMatches (effectiveNewsStatus c p.status) p) :=
        List.mem_of_mem_drop (List.mem_of_mem_take ha')
      have hm := (List.mem_filter.mp hmem).2
      rw [hn] at hm
      simp only [newsMatches, Bool.and_eq_true, beq_iff_eq] at hm
      exact hm.1.1
    · simp [listNews, hn]
    · intro v hv2
      have hv' : v ∈ ((vs.filter (videoMatches (effectiveVideoStatus c p.status) p)).drop
          ((p.page - 1) * p.limit)).take p.limit := hv2
      have hmem : v ∈ vs.filter (videoMatches (effectiveVideoStatus c p.status) p) :=
        List.mem_of_mem_drop (List.mem_of_mem_take hv')
      have hm := (List.mem_filter.mp hmem).2
      rw [hv] at hm
      simp only [videoMatches, Bool.and_eq_true, beq_iff_eq] at hm
      exact hm.1.1
    · simp [listVideos, hv]
  · intro hadm
    cases c with
    | none => simp [callerRole] at hadm
    | some u =>
      have hu : u.role = Role.admin := by
        simpa [callerRole] using hadm
      simp [effectiveNewsStatus, effectiveVideoStatus, hu]

/-- Witness for C4 amended: a guest caller requesting drafts is forced
to published; an admin caller requesting drafts gets the draft filter. -/
theorem list_status_forcing_witness :
    effectiveNewsStatus (some ⟨9, Role.guest⟩) Status.draft = Status.published ∧
    effectiveNewsStatus (some ⟨4, Role.admin⟩) Status.draft = Status.draft :=
  ⟨((list_status_forcing [] [] (some ⟨9, Role.guest⟩)
      { status := Status.draft }).1 (by decide)).1,
   ((list_status_forcing [] [] (some ⟨4, Role.admin⟩)
      { status := Status.draft }).2 (by decide)).1⟩

/-- Looking up the id after a write-back for that id finds the written
document, provided the lookup previously succeeded and the document
carries the id. -/
theorem findNews_after_replace (ns : List News) (i : Nat) (a' : News)
    (hsome : (findNews ns i).isSome) (hid : a'.id = i) :
    findNews (replaceNews ns i a') i = some a' := by
  induction ns with
  | nil => simp [findNews] at hsome
  | cons b rest ih =>
    by_cases hb : b.id = i
    · have hrepl : replaceNews (b :: rest) i a' = a' :: replaceNews rest i a' := by
        simp [replaceNews, hb]
      rw [findNews, hrepl, List.find?_cons_of_pos]
      simp [hid]
    · have hrepl : replaceNews (b :: rest) i a' = b :: replaceNews rest i a' := by
        simp [replaceNews, hb]
      have hsome' : (findNews rest i).isSome := by
        have heq : findNews (b :: rest) i = findNews rest i := by
          rw [findNews, List.find?_cons_of_neg, findNews]
          simp [hb]
        rw [heq] at hsome
        exact hsome
      rw [findNews, hrepl, List.find?_cons_of_neg]
      · exact ih hsome'
      · simp [hb]

/-- Video counterpart of `findNews_after_replace`. -/
theorem findVideo_after_replace (vs : List Video) (i : Nat) (v' : Video)
    (hsome : (findVideo vs i).isSome) (hid : v'.id = i) :
    findVideo (replaceVideo vs i v') i = some v' := by
  induction vs with
  | nil => simp [findVideo] at hsome
  | cons b rest ih =>
    by_cases hb : b.id = i
    · have hrepl : replaceVideo (b :: rest) i v' = v' :: replaceVideo rest i v' := by
        simp [replaceVideo, hb]
      rw [findVideo, hrepl, List.find?_cons_of_pos]
      simp [hid]
    · have hrepl : replaceVideo (b :: rest) i v' = b :: replaceVideo rest i v' := by
        simp [replaceVideo, hb]
      have hsome' : (findVideo rest i).isSome := by
        have heq : findVideo (b :: rest) i = findVideo rest i := by
          rw [findVideo, List.find?_cons_of_neg, findVideo]
          simp [hb]
        rw [heq] at hsome
        exact hsome
      rw [findVideo, hrepl, List.find?_cons_of_neg]
      · exact ih hsome'
      · simp [hb]

/-- A found document carries the id it was found under. -/
theorem findNews_id (ns : List News) (i : Nat) (a : News)
    (h : findNews ns i = some a) : a.id = i := by
  have := List.find?_some h
  simpa using this

/-- A found video carries the id it was found under. -/
theorem findVideo_id (vs : List Video) (i : Nat) (v : Video)
    (h : findVideo vs i = some v) : v.id = i := by
  have := List.find?_some h
  simpa using this

/-- C6: share on a news article and like on a video: 404 with an
untouched store when the id is absent; 403 with an untouched store —
the counter included — when the item is not published; otherwise 200,
the response reporting the advanced counter and the stored counter
advanced by exactly one. -/
theorem record_engagement_cases (ns : List News) (vs : List Video) (i : Nat) :
    (findNews ns i = none → shareNews ns i = ((404, none), ns)) ∧
    (∀ a, findNews ns i = some a → a.status ≠ Status.published →
      shareNews ns i = ((403, none), ns)) ∧
    (∀ a, findNews ns i = some a → a.status = Status.published →
      (shareNews ns i).1 = (200, some (a.shares + 1)) ∧
      (findNews (shareNews ns i).2 i).map News.shares = some (a.shares + 1)) ∧
    (findVideo vs i = none → likeVideo vs i = ((404, none), vs)) ∧
    (∀ v, findVideo vs i = some v → v.status ≠ Status.published →
      likeVideo vs i = ((403, none), vs)) ∧
    (∀ v, findVideo vs i = some v → v.status = Status.published →
      (likeVideo vs i).1 = (200, some (v.likes + 1)) ∧
      (findVideo (likeVideo vs i).2 i).map Video.likes = some (v.likes + 1)) := by
  refine ⟨?_, ?_, ?_, ?_, ?_, ?_⟩
  · intro h; simp [shareNews, h]
  · intro a ha hst; simp [shareNews, ha, hst]
  · intro a ha hst
    have hcond : ¬ (a.status ≠ Status.published) := by simp [hst]
    have hsh : shareNews ns i
        = ((200, some (a.shares + 1)), replaceNews ns i { a with shares := a.shares + 1 }) := by
      simp only [shareNews, ha]
      rw [if_neg hcond]
    have hrep : findNews (replaceNews ns i { a with shares := a.shares + 1 }) i
        = some { a with shares := a.shares + 1 } :=
      findNews_after_replace ns i _ (by simp [ha]) (findNews_id ns i a ha)
    rw [hsh]
    exact ⟨rfl, by rw [hrep]; rfl⟩
  · intro h; simp [likeVideo, h]
  · intro v hv hst; simp [likeVideo, hv, hst]
  · intro v hv hst
    have hcond : ¬ (v.status ≠ Status.published) := by simp [hst]
    have hlk : likeVideo vs i
        = ((200, some (v.likes + 1)), replaceVideo vs i { v with likes := v.likes + 1 }) := by
      simp only [likeVideo, hv]
      rw [if_neg hcond]
    have hrep : findVideo (replaceVideo vs i { v with likes := v.likes + 1 }) i
        = some { v with likes := v.likes + 1 } :=
      findVideo_after_replace vs i _ (by simp [hv]) (findVideo_id vs i v hv)
    rw [hlk]
    exact ⟨rfl, by rw [hrep]; rfl⟩

/-- Draft video fixture for the engagement witness. -/
def sampleDraftVideo : Video :=
  { sampleStoredVideo with
    id := 2, youtubeId := "def456uvw11",
    youtubeUrl := "https://youtu.be/def456uvw11",
    status := Status.draft, publishedAt := none }

/-- Witness for C6 at concrete stores: missing article, draft article,
and draft video. -/
theorem record_engagement_cases_witness :
    shareNews [] 1 = ((404, none), []) ∧
    shareNews [sampleDraftArticle] 1 = ((403, none), [sampleDraftArticle]) ∧
    likeVideo [sampleDraftVideo] 2 = ((403, none), [sampleDraftVideo]) :=
  ⟨(record_engagement_cases [] [] 1).1 (by decide),
   (record_engagement_cases [sampleDraftArticle] [] 1).2.1
      sampleDraftArticle (by decide) (by decide),
   (record_engagement_cases [] [sampleDraftVideo] 2).2.2.2.2.1
      sampleDraftVideo (by decide) (by decide)⟩

/-- C9 counterexample: the interleaving read-A, read-B, write-A,
write-B of two share increments — each one a `findById` snapshot
followed by `incrementShares` saving snapshot + 1 — completes both
requests yet advances the stored counter by one, not two: share
increments are not applied as single atomic updates and one of two
concurrent increments can be lost. -/
theorem share_race_loses_an_increment :
    runShareRace [true, false, true, false] 0
      = ⟨1, some 0, true, some 0, true⟩ := by decide

/-- C9 amended: a view increment is a single atomic $inc round trip,
so under either order the two concurrent view increments both land and
the counter advances by exactly 2; a share increment is a
read-modify-write of a document snapshot, and its fully overlapping
interleaving completes both requests with the counter advanced by
only 1. -/
theorem view_inc_atomic_share_inc_lossy (w : Bool) (v0 s0 : Nat) :
    (runViewRace [w, !w] v0).views = v0 + 2 ∧
    (runViewRace [w, !w] v0).doneA = true ∧
    (runViewRace [w, !w] v0).doneB = true ∧
    (runShareRace [w, !w, w, !w] s0).shares = s0 + 1 ∧
    (runShareRace [w, !w, w, !w] s0).doneA = true ∧
    (runShareRace [w, !w, w, !w] s0).doneB = true := by
  cases w <;>
    simp [runViewRace, viewRaceStep, runShareRace, shareRaceStep, List.foldl]

/-- Active account carrying three failed attempts and a phone number. -/
def userWithFailures : User :=
  { id := 4, name := "Rohan", email := "9998887776@temp.com",
    password := bhash "pw123456", phone := some "9998887776",
    role := Role.user, status := UserStatus.active, phoneVerified := true,
    lastLogin := none, loginAttempts := 3, lockUntil := none,
    lastActiveAt := none }

/-- C3 counterexample: a phone-OTP login succeeds (200, token issued)
for an active account carrying three failed attempts and leaves the
counter at 3 — so not every successful authentication resets the
failed-login counter to 0. -/
theorem phone_login_does_not_reset_counter :
    (phoneLoginStep (some userWithFailures) "9998887776" "1234" "r4nd0m" 500).1.http
      = 200 ∧
    ((phoneLoginStep (some userWithFailures) "9998887776" "1234" "r4nd0m" 500).2.map
        User.loginAttempts) = some 3 ∧
    some (3 : Nat) ≠ some 0 := by decide

/-- C3 amended: a successful email/password login always resets the
failed-login counter to 0, whatever its prior value; a successful
phone-OTP login of an existing account leaves the counter exactly as it
was. -/
theorem successful_login_counter_behaviour (u : User)
    (pw phone otp randPw : String) (now : Nat) :
    ((loginStep u pw now).1.http = 200 →
      (loginStep u pw now).2.loginAttempts = 0) ∧
    ((phoneLoginStep (some u) phone otp randPw now).1.http = 200 →
      (phoneLoginStep (some u) phone otp randPw now).2.map User.loginAttempts
        = some u.loginAttempts) := by
  constructor
  · intro h200
    by_cases hl : isLockedAt u now
    · simp [loginStep, hl] at h200
    · by_cases hact : u.status = UserStatus.active
      · by_cases hpw : comparePassword pw u.password
        · by_cases hpos : 0 < u.loginAttempts
          · simp [loginStep, hl, hact, hpw, hpos, resetLoginAttempts]
          · simp [loginStep, hl, hact, hpw, hpos]
            omega
        · simp [loginStep, hl, hact, hpw] at h200
      · simp [loginStep, hl, hact] at h200
  · intro h200
    by_cases hotp : otp = validOTP
    · by_cases hact : u.status = UserStatus.active
      · simp [phoneLoginStep, hotp, hact]
      · simp [phoneLoginStep, hotp, hact] at h200
    · simp [phoneLoginStep, hotp] at h200

/-- Witness for C3 amended: the password path resets the counter of
the three-failure account; the phone path keeps it at 3. -/
theorem successful_login_counter_behaviour_witness :
    (loginStep userWithFailures "pw123456" 100).2.loginAttempts = 0 ∧
    (phoneLoginStep (some userWithFailures) "9998887776" "1234" "rr" 100).2.map
        User.loginAttempts = some userWithFailures.loginAttempts :=
  ⟨(successful_login_counter_behaviour userWithFailures "pw123456" "" "" "" 100).1
      (by decide),
   (successful_login_counter_behaviour userWithFailures "x" "9998887776" "1234" "rr"
      100).2 (by decide)⟩

/-- C2: from an active account with a clean counter and no lock, the
lock stays unset through four wrong-password logins, the fifth sets
lock-until to exactly two hours after its own instant with the counter
at 5, and any sixth attempt before that instant — whatever password it
submits, the correct one included — answers 423 Locked. -/
theorem fifth_failure_locks_two_hours (u : User) (wrongPw : String)
    (t1 t2 t3 t4 t5 : Nat)
    (hact : u.status = UserStatus.active)
    (h0 : u.loginAttempts = 0)
    (hnl : u.lockUntil = none)
    (hw : comparePassword wrongPw u.password = false) :
    (runAttempts u wrongPw [t1, t2, t3, t4]).lockUntil = none ∧
    (runAttempts u wrongPw [t1, t2, t3, t4, t5]).loginAttempts = 5 ∧
    (runAttempts u wrongPw [t1, t2, t3, t4, t5]).lockUntil = some (t5 + lockTime) ∧
    ∀ pw t6, t6 < t5 + lockTime →
      (loginStep (runAttempts u wrongPw [t1, t2, t3, t4, t5]) pw t6).1 = ⟨423, none⟩ := by
  obtain ⟨uid, nm, em, pw0, ph, rl, st, pv, ll, la, lk, laa⟩ := u
  dsimp only at hact h0 hnl hw
  subst hact h0 hnl
  refine ⟨?_, ?_, ?_, ?_⟩
  · simp [runAttempts, List.foldl, loginStep, incLoginAttempts, isLockedAt,
      expiredLockAt, hw, maxAttempts]
  · simp [runAttempts, List.foldl, loginStep, incLoginAttempts, isLockedAt,
      expiredLockAt, hw, maxAttempts]
  · simp [runAttempts, List.foldl, loginStep, incLoginAttempts, isLockedAt,
      expiredLockAt, hw, maxAttempts]
  · intro pw t6 h6
    simp [runAttempts, List.foldl, loginStep, incLoginAttempts, isLockedAt,
      expiredLockAt, hw, maxAttempts, h6]

/-- Fresh active account with no failed attempts on record. -/
def freshUser : User :=
  { id := 5, name := "Asha", email := "a@x.com",
    password := bhash "secret1", phone := none, role := Role.user,
    status := UserStatus.active, phoneVerified := false, lastLogin := none,
    loginAttempts := 0, lockUntil := none, lastActiveAt := none }

/-- Witness for C2: five wrong passwords at times 10..50 set the lock
to 50 + 2h and the correct password at time 60 is answered 423. -/
theorem fifth_failure_locks_two_hours_witness :
    (runAttempts freshUser "wrong" [10, 20, 30, 40, 50]).lockUntil
      = some (50 + lockTime) ∧
    (loginStep (runAttempts freshUser "wrong" [10, 20, 30, 40, 50]) "secret1" 60).1
      = ⟨423, none⟩ :=
  ⟨(fifth_failure_locks_two_hours freshUser "wrong" 10 20 30 40 50
      rfl rfl rfl (by decide)).2.2.1,
   (fifth_failure_locks_two_hours freshUser "wrong" 10 20 30 40 50
      rfl rfl rfl (by decide)).2.2.2 "secret1" 60 (by decide)⟩

/-- C8 counterexample: starting from a fresh active account, the fifth
consecutive wrong-password login is answered 401, not 423 — the lock is
created during that fifth attempt, and only attempts from the sixth on
observe it. -/
theorem fifth_response_is_401 :
    (loginStep (runAttempts freshUser "wrong" [10, 20, 30, 40]) "wrong" 50).1
      = ⟨401, none⟩ ∧
    (401 : Nat) ≠ 423 := by decide

/-- C8 amended: from an active account with a clean counter and no
lock, the fifth consecutive wrong-password login is answered 401 while
setting the lock as its side effect, and an immediately following login
with the correct password is answered 423 until the two hours elapse. -/
theorem fifth_401_then_correct_password_locked (u : User)
    (wrongPw correctPw : String) (t1 t2 t3 t4 t5 t6 : Nat)
    (hact : u.status = UserStatus.active)
    (h0 : u.loginAttempts = 0)
    (hnl : u.lockUntil = none)
    (hw : comparePassword wrongPw u.password = false)
    (hc : comparePassword correctPw u.password = true)
    (h6 : t6 < t5 + lockTime) :
    (loginStep (runAttempts u wrongPw [t1, t2, t3, t4]) wrongPw t5).1 = ⟨401, none⟩ ∧
    (runAttempts u wrongPw [t1, t2, t3, t4, t5]).lockUntil = some (t5 + lockTime) ∧
    (loginStep (runAttempts u wrongPw [t1, t2, t3, t4, t5]) correctPw t6).1
      = ⟨423, none⟩ := by
  obtain ⟨uid, nm, em, pw0, ph, rl, st, pv, ll, la, lk, laa⟩ := u
  dsimp only at hact h0 hnl hw hc
  subst hact h0 hnl
  refine ⟨?_, ?_, ?_⟩
  · simp [runAttempts, List.foldl, loginStep, incLoginAttempts, isLockedAt,
      expiredLockAt, hw, maxAttempts]
  · simp [runAttempts, List.foldl, loginStep, incLoginAttempts, isLockedAt,
      expiredLockAt, hw, maxAttempts]
  · simp [runAttempts, List.foldl, loginStep, incLoginAttempts, isLockedAt,
      expiredLockAt, hw, maxAttempts, h6]

/-- Witness for C8 amended at the fresh account with password secret1. -/
theorem fifth_401_then_correct_password_locked_witness :
    (loginStep (runAttempts freshUser "wrong" [10, 20, 30, 40]) "wrong" 50).1
      = ⟨401, none⟩ ∧
    (loginStep (runAttempts freshUser "wrong" [10, 20, 30, 40, 50]) "secret1" 60).1
      = ⟨423, none⟩ :=
  ⟨(fifth_401_then_correct_password_locked freshUser "wrong" "secret1"
      10 20 30 40 50 60 rfl rfl rfl (by decide) (by decide) (by decide)).1,
   (fifth_401_then_correct_password_locked freshUser "wrong" "secret1"
      10 20 30 40 50 60 rfl rfl rfl (by decide) (by decide) (by decide)).2.2⟩

/-- C10: the phone-OTP login route never applies the lockout check: an
active account whose lock-until lies in the future — one the password
route would answer 423 — still logs in with the valid OTP, receives a
freshly issued token, and keeps its lock untouched. -/
theorem phone_login_ignores_lock (u : User) (phone randPw : String)
    (now t : Nat) (hact : u.status = UserStatus.active)
    (hl : u.lockUntil = some t) (hfut : now < t) :
    isLockedAt u now = true ∧
    (phoneLoginStep (some u) phone validOTP randPw now).1
      = ⟨200, some (generateToken u.id)⟩ ∧
    (phoneLoginStep (some u) phone validOTP randPw now).2.map User.lockUntil
      = some (some t) := by
  refine ⟨by simp [isLockedAt, hl, hfut], ?_, ?_⟩
  · simp [phoneLoginStep, hact]
  · simp [phoneLoginStep, hact, hl]

/-- Witness for C10: the account locked until 10000 phone-logs in at
time 500 with the valid OTP. -/
theorem phone_login_ignores_lock_witness :
    isLockedAt lockedUser 500 = true ∧
    (phoneLoginStep (some lockedUser) "9998887776" validOTP "rr" 500).1
      = ⟨200, some (generateToken lockedUser.id)⟩ :=
  ⟨(phone_login_ignores_lock lockedUser "9998887776" "rr" 500 10000
      rfl rfl (by decide)).1,
   (phone_login_ignores_lock lockedUser "9998887776" "rr" 500 10000
      rfl rfl (by decide)).2.1⟩
